import Mathlib

/-!
Verification of the Ubbink Ubiflux Vigor Modbus integration
(`custom_components/ubbink_vigor`): a shallow embedding of
`modbus_client.py`, `coordinator.py` and the register tables of `const.py`,
together with theorems settling the specification claims about them.

Registers hold unsigned 16-bit words, embedded as `Nat`.  Python floats
produced by `round(x / 10.0, 1)` are embedded as rationals; every value the
code rounds is an exact multiple of 1/10, where Python's rounding is exact,
so the embedding is faithful on all reachable values.
-/

namespace UbbinkVigor

/-! ### Register constants (const.py) -/

def REG_SERIAL_0 : Nat := 4010
def REG_ACTIVE_FUNCTION : Nat := 4020
def REG_FAN_INLET_STATUS : Nat := 4030
def REG_FAN_EXHAUST_STATUS : Nat := 4040
def REG_BYPASS_STATUS : Nat := 4050
def REG_PREHEATER_STATUS : Nat := 4060
def REG_FROST_STATUS : Nat := 4070
def REG_OUTSIDE_TEMP : Nat := 4081
def REG_FILTER_STATUS : Nat := 4100
def REG_OPERATING_HOURS_HI : Nat := 4113
def REG_CO2_SENSOR1_VALUE : Nat := 4201
def REG_SYSTEM_ERROR_STATUS : Nat := 4800
def REG_FLOW_PRESET_0 : Nat := 6000
def REG_BYPASS_MODE : Nat := 6100
def REG_FILTER_WARNING_DAYS : Nat := 6120
def REG_MODBUS_CONTROL : Nat := 8000
def REG_SWITCH_POSITION : Nat := 8001
def REG_DESIRED_FLOW_RATE : Nat := 8002

def DEFAULT_SCAN_INTERVAL : Nat := 30
def MAX_FAILURES_BEFORE_BACKOFF : Nat := 3
def BACKOFF_INTERVAL : Nat := 120

/-! ### Lookup tables (const.py), as association lists -/

def ACTIVE_FUNCTION_MAP : List (Nat × String) :=
  [(0, "Standby"), (1, "Bootloader"), (4, "Manual"), (5, "Holiday"),
   (6, "Night Ventilation"), (7, "Party"), (8, "Bypass Boost"),
   (9, "Normal Boost"), (10, "Auto CO2"), (11, "Auto eBus"),
   (12, "Auto Modbus"), (13, "Auto LAN/WLAN Portal"),
   (14, "Auto LAN/WLAN Local")]

def VENTILATION_MODE_MAP : List (Nat × String) :=
  [(0, "Holiday"), (1, "Low"), (2, "Normal"), (3, "High"), (4, "Auto")]

def BYPASS_STATUS_MAP : List (Nat × String) :=
  [(0, "Initializing"), (1, "Opening"), (2, "Closing"), (3, "Open"),
   (4, "Closed")]

def BYPASS_MODE_MAP : List (Nat × String) :=
  [(0, "Automatic"), (1, "Closed"), (2, "Open")]

/-- `BYPASS_MODE_REVERSE = {v: k for k, v in BYPASS_MODE_MAP.items()}` -/
def BYPASS_MODE_REVERSE : List (String × Nat) :=
  BYPASS_MODE_MAP.map (fun p => (p.2, p.1))

def FILTER_STATUS_MAP : List (Nat × String) :=
  [(0, "Clean"), (1, "Dirty")]

def SYSTEM_ERROR_MAP : List (Nat × String) :=
  [(0, "No Error"), (1, "Warning"), (2, "Non-blocking Error"),
   (3, "Blocking Error")]

def FAN_STATUS_MAP : List (Nat × String) :=
  [(2, "No Communication"), (3, "Idle"), (4, "Running"), (5, "Blocked"),
   (6, "Fan Error")]

def PREHEATER_STATUS_MAP : List (Nat × String) :=
  [(0, "Initializing"), (1, "Inactive"), (2, "Active"), (3, "Test Mode")]

def AIRFLOW_MODE_TO_SWITCH : List (String × Nat) :=
  [("holiday", 0), ("low", 1), ("normal", 2), ("high", 3)]

/-- `SWITCH_TO_AIRFLOW_MODE = {v: k for k, v in AIRFLOW_MODE_TO_SWITCH.items()}` -/
def SWITCH_TO_AIRFLOW_MODE : List (Nat × String) :=
  AIRFLOW_MODE_TO_SWITCH.map (fun p => (p.2, p.1))

/-! ### Decoded snapshot values

A Python snapshot dict value is a string label, an integer, a float
(here: a rational), or `None`. -/

inductive Val where
  | str : String → Val
  | int : Int → Val
  | rat : ℚ → Val
  | none : Val
deriving DecidableEq

/-! ### Decode helpers (modbus_client.py) -/

/-- `_to_signed`: convert an unsigned 16-bit word to signed
(`value - 0x10000` when `value >= 0x8000`). -/
def _to_signed (value : Nat) : Int :=
  if value ≥ 0x8000 then (value : Int) - 0x10000 else (value : Int)

/-- Python's `round(q, 1)` on an exact rational: round `q * 10` to the
nearest integer and divide by 10.  All values this code rounds are exact
tenths, so no tie-breaking ever occurs. -/
def round1 (q : ℚ) : ℚ := ((round (q * 10) : ℤ) : ℚ) / 10

/-- `round(self._to_signed(v) / 10.0, 1)` -/
def signedTenths (v : Nat) : ℚ := round1 ((_to_signed v : ℚ) / 10)

/-- `MAP.get(v, f"Unknown ({v})")` -/
def labelGet (m : List (Nat × String)) (v : Nat) : String :=
  (List.lookup v m).getD ("Unknown (" ++ toString v ++ ")")

/-- `round(raw / 10.0, 1) if raw <= 1000 else None`: the humidity decode
used for supply-fan, exhaust-fan and RHT humidity registers. -/
def humidity_decode (raw : Nat) : Val :=
  if raw ≤ 1000 then Val.rat (round1 ((raw : ℚ) / 10)) else Val.none

/-- BCD serial decode: for each word append the decimal rendering of its
four nibbles, most significant first (`f-string` formatting of
`(reg >> 12) & 0xF` etc.). -/
def serial_decode (regs : List Nat) : String :=
  regs.foldl
    (fun acc reg =>
      acc ++ toString ((reg >>> 12) &&& 0xF) ++ toString ((reg >>> 8) &&& 0xF)
        ++ toString ((reg >>> 4) &&& 0xF) ++ toString (reg &&& 0xF))
    ""

lemma round1_natCast_div_ten (r : Nat) : round1 ((r : ℚ) / 10) = (r : ℚ) / 10 := by
  have h1 : ((r : ℚ) / 10) * 10 = ((r : ℤ) : ℚ) := by push_cast; ring
  unfold round1
  rw [h1, round_intCast]
  push_cast
  ring

/-- **C4.** For every 16-bit unsigned word `w`, `_to_signed` returns
`w - 65536` when `w ≥ 0x8000` and `w` unchanged when `w < 0x8000`. -/
theorem to_signed_twos_complement (w : Nat) (hw : w ≤ 65535) :
    (0x8000 ≤ w → _to_signed w = (w : Int) - 65536) ∧
    (w < 0x8000 → _to_signed w = (w : Int)) := by
  constructor
  · intro h
    simp [_to_signed, h]
  · intro h
    simp [_to_signed]
    omega

/-- Witness for C4: evaluation at `0x8000` and at `5`. -/
theorem to_signed_twos_complement_witness :
    _to_signed 0x8000 = (0x8000 : Int) - 65536 ∧ _to_signed 5 = 5 := by
  refine ⟨(to_signed_twos_complement 0x8000 (by decide)).1 (by decide), ?_⟩
  exact (to_signed_twos_complement 5 (by decide)).2 (by decide)

/-- **C8.** The humidity decode yields absent for raw words above 1000 and
`raw/10` (to one decimal) otherwise; in particular 1001 decodes to absent
and 1000 decodes to 100.0. -/
theorem humidity_decode_sentinel (r : Nat) :
    (1000 < r → humidity_decode r = Val.none) ∧
    (r ≤ 1000 → humidity_decode r = Val.rat ((r : ℚ) / 10)) ∧
    humidity_decode 1001 = Val.none ∧
    humidity_decode 1000 = Val.rat 100 := by
  refine ⟨?_, ?_, ?_, ?_⟩
  · intro h
    simp [humidity_decode]
    omega
  · intro h
    simp [humidity_decode, h, round1_natCast_div_ten]
  · simp [humidity_decode]
  · unfold humidity_decode
    rw [if_pos (by norm_num)]
    rw [show ((1000 : Nat) : ℚ) / 10 = 100 by norm_num]
    congr 1
    unfold round1
    rw [show (100 : ℚ) * 10 = ((1000 : ℤ) : ℚ) by norm_cast, round_intCast]
    norm_num

/-- Witness for C8: evaluation at 1001, 1000 and 250. -/
theorem humidity_decode_sentinel_witness :
    humidity_decode 1001 = Val.none ∧ humidity_decode 1000 = Val.rat 100 ∧
    humidity_decode 250 = Val.rat 25 := by
  refine ⟨(humidity_decode_sentinel 1001).1 (by decide),
    (humidity_decode_sentinel 0).2.2.2, ?_⟩
  have h := (humidity_decode_sentinel 250).2.1 (by decide)
  rw [h]
  norm_num

/-! ### Serial-number decode (read_all_data, batch at 4010)

`serial_decode` renders each of the four nibbles of each word with Python's
decimal f-string formatting and concatenates the results in word order. -/

/-- The four 4-bit nibbles of a word, most significant first. -/
def nibbles (w : Nat) : List Nat :=
  [(w >>> 12) &&& 0xF, (w >>> 8) &&& 0xF, (w >>> 4) &&& 0xF, w &&& 0xF]

/-- Spec-side rendition of the serial-number decode, following the spec
words: the string formed by concatenating the BCD nibbles of the words as
single digit characters, most-significant word first, most-significant
nibble first.  For three BCD-valid words this is a 12-character string. -/
def serialSpecString (ws : List Nat) : String :=
  String.mk ((ws.map nibbles).flatten.map (fun n => Char.ofNat (48 + n)))

lemma toString_digit (n : Nat) (h : n ≤ 9) :
    toString n = String.mk [Char.ofNat (48 + n)] := by
  interval_cases n <;> rfl

/-- **C9 counterexample.** The decode applied to the non-BCD words
`[0xFFFF, 0, 0]` yields a 16-character string, not a 12-character one:
each nibble `15` is rendered as the two characters `"15"`. -/
theorem serial_decode_nonbcd :
    serial_decode [0xFFFF, 0, 0] = "1515151500000000" ∧
    (serial_decode [0xFFFF, 0, 0]).length ≠ 12 := by
  constructor <;> decide

/-- **C9 (amended).** For every list of 3 words all of whose nibbles are
BCD digits (≤ 9), the serial decode is exactly the 12-character string of
the nibble digits, most-significant word first, most-significant nibble
first; in particular `[0x1234, 0x5678, 0x9012]` decodes to
`"123456789012"`. -/
theorem serial_decode_bcd (ws : List Nat) (h3 : ws.length = 3)
    (hbcd : ∀ w ∈ ws, ∀ n ∈ nibbles w, n ≤ 9) :
    serial_decode ws = serialSpecString ws ∧
    (serial_decode ws).length = 12 ∧
    serial_decode [0x1234, 0x5678, 0x9012] = "123456789012" := by
  rcases ws with _ | ⟨a, _ | ⟨b, _ | ⟨c, _ | ⟨d, t⟩⟩⟩⟩ <;> simp at h3
  have ha := hbcd a (by simp)
  have hb := hbcd b (by simp)
  have hc := hbcd c (by simp)
  have key : serial_decode [a, b, c] = serialSpecString [a, b, c] := by
    simp only [serial_decode, List.foldl]
    rw [toString_digit _ (ha _ (by simp [nibbles])),
      toString_digit _ (ha _ (by simp [nibbles])),
      toString_digit _ (ha _ (by simp [nibbles])),
      toString_digit _ (ha _ (by simp [nibbles])),
      toString_digit _ (hb _ (by simp [nibbles])),
      toString_digit _ (hb _ (by simp [nibbles])),
      toString_digit _ (hb _ (by simp [nibbles])),
      toString_digit _ (hb _ (by simp [nibbles])),
      toString_digit _ (hc _ (by simp [nibbles])),
      toString_digit _ (hc _ (by simp [nibbles])),
      toString_digit _ (hc _ (by simp [nibbles])),
      toString_digit _ (hc _ (by simp [nibbles]))]
    rfl
  refine ⟨key, ?_, by decide⟩
  rw [key]
  rfl

/-- Witness for C9 (amended): evaluation at `[0x1234, 0x5678, 0x9012]`. -/
theorem serial_decode_bcd_witness :
    serial_decode [0x1234, 0x5678, 0x9012] =
      serialSpecString [0x1234, 0x5678, 0x9012] ∧
    (serial_decode [0x1234, 0x5678, 0x9012]).length = 12 := by
  have h := serial_decode_bcd [0x1234, 0x5678, 0x9012] (by decide) (by decide)
  exact ⟨h.1, h.2.1⟩

/-! ### Command encoder (modbus_client.py write commands)

Each command is embedded as a function of the caller's argument and of the
outcomes the device gives to the successive `_write_register` calls
(`ok₁`, `ok₂` : whether the first and second write succeed).  The result is
the returned success flag together with the ordered log of
`(register, value)` writes actually issued on the wire. -/

/-- `set_custom_flow_rate`: clamp to [0, 400], write control-mode = 2,
then (only on success) write the desired-flow-rate register. -/
def set_custom_flow_rate (rate : Int) (ok₁ ok₂ : Bool) :
    Bool × List (Nat × Int) :=
  let r := max 0 (min rate 400)
  if ok₁ then
    (ok₂, [(REG_MODBUS_CONTROL, 2), (REG_DESIRED_FLOW_RATE, r)])
  else (false, [(REG_MODBUS_CONTROL, 2)])

/-- `set_airflow_mode`: `"wall_unit"` writes control-mode = 0; a mapped
switch mode writes control-mode = 1 then the switch position; anything
else writes nothing and fails. -/
def set_airflow_mode (mode : String) (ok₁ ok₂ : Bool) :
    Bool × List (Nat × Int) :=
  if mode = "wall_unit" then (ok₁, [(REG_MODBUS_CONTROL, 0)])
  else
    match List.lookup mode AIRFLOW_MODE_TO_SWITCH with
    | some c =>
      if ok₁ then
        (ok₂, [(REG_MODBUS_CONTROL, 1), (REG_SWITCH_POSITION, (c : Int))])
      else (false, [(REG_MODBUS_CONTROL, 1)])
    | Option.none => (false, [])

/-- `set_bypass_mode`: map the label through `BYPASS_MODE_REVERSE`; an
unmapped label is a validation failure with no write. -/
def set_bypass_mode (mode : String) (ok₁ : Bool) : Bool × List (Nat × Int) :=
  match List.lookup mode BYPASS_MODE_REVERSE with
  | Option.none => (false, [])
  | some c => (ok₁, [(REG_BYPASS_MODE, (c : Int))])

/-- The bypass-mode poll decode `BYPASS_MODE_MAP.get(v, f"Unknown ({v})")`
used by `read_all_data` on holding register 6100. -/
def bypass_mode_label (v : Nat) : String := labelGet BYPASS_MODE_MAP v

/-- **C5.** `set_custom_flow_rate` clamps the rate to [0, 400]; it writes
control-mode register 8000 = 2 first and the flow-rate register 8002 with
the clamped value only if the first write succeeded; if the first write
fails the second is never issued and the operation fails. -/
theorem set_custom_flow_rate_spec (rate : Int) (ok₂ : Bool) :
    (0 ≤ max 0 (min rate 400) ∧ max 0 (min rate 400) ≤ 400) ∧
    (∀ ok₁, set_custom_flow_rate rate ok₁ ok₂ =
      if ok₁ then
        (ok₂, [(REG_MODBUS_CONTROL, 2),
               (REG_DESIRED_FLOW_RATE, max 0 (min rate 400))])
      else (false, [(REG_MODBUS_CONTROL, 2)])) ∧
    set_custom_flow_rate 500 true ok₂ =
      (ok₂, [(REG_MODBUS_CONTROL, 2), (REG_DESIRED_FLOW_RATE, 400)]) ∧
    set_custom_flow_rate (-10) true ok₂ =
      (ok₂, [(REG_MODBUS_CONTROL, 2), (REG_DESIRED_FLOW_RATE, 0)]) := by
  refine ⟨⟨le_max_left _ _, ?_⟩, ?_, by simp [set_custom_flow_rate], by
    simp [set_custom_flow_rate]⟩
  · omega
  · intro ok₁
    cases ok₁ <;> simp [set_custom_flow_rate]

/-- **C6.** `set_airflow_mode`: `"wall_unit"` causes exactly the single
write 8000 = 0; each switch mode writes 8000 = 1 then 8001 = mapped code
(the second only if the first succeeded, the result failing if either
fails); any other string causes no write and fails. -/
theorem set_airflow_mode_spec (mode : String) (ok₁ ok₂ : Bool) :
    set_airflow_mode "wall_unit" ok₁ ok₂ = (ok₁, [(REG_MODBUS_CONTROL, 0)]) ∧
    (∀ p ∈ [("holiday", (0 : Int)), ("low", 1), ("normal", 2), ("high", 3)],
      set_airflow_mode p.1 ok₁ ok₂ =
        if ok₁ then
          (ok₂, [(REG_MODBUS_CONTROL, 1), (REG_SWITCH_POSITION, p.2)])
        else (false, [(REG_MODBUS_CONTROL, 1)])) ∧
    (mode ≠ "wall_unit" → mode ∉ ["holiday", "low", "normal", "high"] →
      set_airflow_mode mode ok₁ ok₂ = (false, [])) := by
  refine ⟨by simp [set_airflow_mode], ?_, ?_⟩
  · intro p hp
    fin_cases hp <;> cases ok₁ <;>
      simp [set_airflow_mode, AIRFLOW_MODE_TO_SWITCH, List.lookup]
  · intro h₁ h₂
    simp only [List.mem_cons, List.not_mem_nil, or_false, not_or] at h₂
    obtain ⟨n₁, n₂, n₃, n₄⟩ := h₂
    rw [set_airflow_mode, if_neg h₁]
    have : List.lookup mode AIRFLOW_MODE_TO_SWITCH = Option.none := by
      simp [AIRFLOW_MODE_TO_SWITCH, List.lookup,
        beq_eq_false_iff_ne.mpr n₁, beq_eq_false_iff_ne.mpr n₂,
        beq_eq_false_iff_ne.mpr n₃, beq_eq_false_iff_ne.mpr n₄]
    rw [this]

/-- Witness for C6: evaluation at `"invalid"`, `"normal"` and
`"wall_unit"`. -/
theorem set_airflow_mode_spec_witness :
    set_airflow_mode "invalid" true true = (false, []) ∧
    set_airflow_mode "normal" true false =
      (false, [(REG_MODBUS_CONTROL, 1), (REG_SWITCH_POSITION, 2)]) ∧
    set_airflow_mode "wall_unit" true true =
      (true, [(REG_MODBUS_CONTROL, 0)]) := by
  have h := set_airflow_mode_spec "invalid" true true
  have h2 := set_airflow_mode_spec "normal" true false
  refine ⟨h.2.2 (by decide) (by decide), ?_, h.1⟩
  have := h2.2.1 ("normal", (2 : Int)) (by simp)
  simpa using this

/-- Witness for C5: evaluation at 500 and at a failing first write. -/
theorem set_custom_flow_rate_spec_witness :
    set_custom_flow_rate 500 true true =
      (true, [(REG_MODBUS_CONTROL, 2), (REG_DESIRED_FLOW_RATE, 400)]) ∧
    set_custom_flow_rate 123 false true =
      (false, [(REG_MODBUS_CONTROL, 2)]) := by
  have h := set_custom_flow_rate_spec 500 true
  have h2 := set_custom_flow_rate_spec 123 true
  refine ⟨h.2.2.1, ?_⟩
  have := h2.2.1 false
  simpa using this

/-- **C7.** Every valid bypass-mode label round-trips: the register value
written by `set_bypass_mode` decodes back to the same label through the
`BYPASS_MODE_MAP` table used by the poll read; every other label causes no
write and fails. -/
theorem set_bypass_mode_roundtrip (mode : String) (ok₁ : Bool) :
    (∀ m ∈ ["Automatic", "Closed", "Open"], ∃ c : Nat,
      set_bypass_mode m ok₁ = (ok₁, [(REG_BYPASS_MODE, (c : Int))]) ∧
      bypass_mode_label c = m) ∧
    (mode ∉ ["Automatic", "Closed", "Open"] →
      set_bypass_mode mode ok₁ = (false, [])) := by
  constructor
  · intro m hm
    fin_cases hm
    · exact ⟨0, by simp [set_bypass_mode, BYPASS_MODE_REVERSE,
        BYPASS_MODE_MAP, List.lookup], by decide⟩
    · exact ⟨1, by simp [set_bypass_mode, BYPASS_MODE_REVERSE,
        BYPASS_MODE_MAP, List.lookup], by decide⟩
    · exact ⟨2, by simp [set_bypass_mode, BYPASS_MODE_REVERSE,
        BYPASS_MODE_MAP, List.lookup], by decide⟩
  · intro hm
    simp only [List.mem_cons, List.not_mem_nil, or_false, not_or] at hm
    obtain ⟨n₁, n₂, n₃⟩ := hm
    rw [set_bypass_mode]
    have : List.lookup mode BYPASS_MODE_REVERSE = Option.none := by
      simp [BYPASS_MODE_REVERSE, BYPASS_MODE_MAP, List.lookup,
        beq_eq_false_iff_ne.mpr n₁, beq_eq_false_iff_ne.mpr n₂,
        beq_eq_false_iff_ne.mpr n₃]
    rw [this]

/-- Witness for C7: the `"Closed"` round-trip and an invalid label. -/
theorem set_bypass_mode_roundtrip_witness :
    (∃ c : Nat, set_bypass_mode "Closed" true = (true, [(REG_BYPASS_MODE, (c : Int))]) ∧
      bypass_mode_label c = "Closed") ∧
    set_bypass_mode "Semi" true = (false, []) := by
  have h := set_bypass_mode_roundtrip "Semi" true
  exact ⟨h.1 "Closed" (by simp), h.2 (by decide)⟩

/-! ### Low-level register operations and exception discipline
(modbus_client.py `_read_input_registers` / `_write_register`)

`client?` models the `_client` attribute (`none` until `connect()` builds
the pymodbus client); `device` models the behaviour of the underlying
pymodbus call: a normal reply, a reply whose `isError()` holds, or a raised
exception. -/

inductive PyExc where
  | attributeError
  | modbusException
  | timeoutError
  | connectionError
deriving DecidableEq

/-- The exception classes named in the `except` clauses of the low-level
register operations: `(ModbusException, asyncio.TimeoutError,
ConnectionError)`.  `AttributeError` (raised by `None._read…`) is not
among them. -/
def caughtExc : PyExc → Bool
  | .modbusException => true
  | .timeoutError => true
  | .connectionError => true
  | .attributeError => false

/-- One device behaviour for a read: a reply carrying registers, an
`isError()` reply (embedded as `.ok none` after the in-`try` check), or a
raised exception. -/
def _read_input_registers (client? : Option Unit)
    (device : Except PyExc (Option (List Nat))) :
    Except PyExc (Option (List Nat)) :=
  match client? with
  | Option.none => Except.error PyExc.attributeError
  | some _ =>
    match device with
    | Except.ok v => Except.ok v
    | Except.error e =>
      if caughtExc e then Except.ok Option.none else Except.error e

/-- `_write_register`, same discipline with a boolean result
(`.ok false` for an `isError()` reply or a caught exception). -/
def _write_register (client? : Option Unit) (device : Except PyExc Bool) :
    Except PyExc Bool :=
  match client? with
  | Option.none => Except.error PyExc.attributeError
  | some _ =>
    match device with
    | Except.ok v => Except.ok v
    | Except.error e =>
      if caughtExc e then Except.ok false else Except.error e

/-- **C10.** On a freshly constructed client (`_client` still absent)
every register operation raises an uncaught `AttributeError` instead of
returning a failure result — the attribute error is outside the caught
exception classes; once a client object exists (connect at least
attempted), every caught I/O exception is converted to the failure
result. -/
theorem fresh_client_raises (device : Except PyExc (Option (List Nat)))
    (wdevice : Except PyExc Bool) (e : PyExc) :
    _read_input_registers Option.none device =
      Except.error PyExc.attributeError ∧
    _write_register Option.none wdevice =
      Except.error PyExc.attributeError ∧
    caughtExc PyExc.attributeError = false ∧
    (caughtExc e = true →
      _read_input_registers (some ()) (Except.error e) =
        Except.ok Option.none) ∧
    (caughtExc e = true →
      _write_register (some ()) (Except.error e) = Except.ok false) := by
  refine ⟨rfl, rfl, rfl, ?_, ?_⟩ <;> intro h <;>
    simp [_read_input_registers, _write_register, h]

/-- Witness for C10: evaluation at a timeout exception. -/
theorem fresh_client_raises_witness :
    _read_input_registers Option.none (Except.ok (some [1])) =
      Except.error PyExc.attributeError ∧
    _read_input_registers (some ()) (Except.error PyExc.timeoutError) =
      Except.ok Option.none := by
  have h := fresh_client_raises (Except.ok (some [1])) (Except.ok true)
    PyExc.timeoutError
  exact ⟨h.1, h.2.2.2.1 (by decide)⟩

/-! ### Coordinator poll state machine (coordinator.py)

The coordinator state is its consecutive-failure counter and the current
poll interval in seconds.  A cycle either produces a snapshot (`success =
true`: `connect` ok and `read_all_data` returned data) or fails (either
failure path increments the counter and calls `_maybe_backoff` once). -/

structure CoordState where
  consecutive_failures : Nat
  update_interval : Nat
deriving DecidableEq

def initCoordState : CoordState := ⟨0, DEFAULT_SCAN_INTERVAL⟩

/-- `_maybe_backoff`; the boolean reports whether the backoff warning was
logged (exactly when the interval actually transitions). -/
def _maybe_backoff (s : CoordState) : CoordState × Bool :=
  if MAX_FAILURES_BEFORE_BACKOFF ≤ s.consecutive_failures then
    if s.update_interval ≠ BACKOFF_INTERVAL then
      ({ s with update_interval := BACKOFF_INTERVAL }, true)
    else (s, false)
  else (s, false)

/-- One `_async_update_data` cycle: on failure increment the counter and
evaluate backoff; on a cycle that returns a snapshot reset the counter and
restore the normal interval (the code only touches the state when the
counter was positive). -/
def update_cycle (s : CoordState) (success : Bool) : CoordState × Bool :=
  if success then
    (if 0 < s.consecutive_failures then
      ⟨0, DEFAULT_SCAN_INTERVAL⟩
    else s, false)
  else
    _maybe_backoff ⟨s.consecutive_failures + 1, s.update_interval⟩

/-- The coordinator state after a sequence of cycle outcomes, starting
from zero failures and the normal 30 s interval. -/
def runCoord (outs : List Bool) : CoordState :=
  outs.foldl (fun s o => (update_cycle s o).1) initCoordState

/-- Reachability invariant of the coordinator state. -/
def CoordInv (s : CoordState) : Prop :=
  (s.consecutive_failures = 0 → s.update_interval = DEFAULT_SCAN_INTERVAL) ∧
  (s.update_interval = DEFAULT_SCAN_INTERVAL ∨
    s.update_interval = BACKOFF_INTERVAL)

lemma coordInv_step (s : CoordState) (success : Bool) (h : CoordInv s) :
    CoordInv (update_cycle s success).1 := by
  obtain ⟨h0, h30⟩ := h
  unfold update_cycle _maybe_backoff CoordInv
  cases success <;> simp only [if_true, if_false, Bool.false_eq_true] <;>
    split_ifs <;> simp_all <;> omega

lemma coordInv_run (outs : List Bool) : CoordInv (runCoord outs) := by
  unfold runCoord
  have h : ∀ s, CoordInv s →
      CoordInv (outs.foldl (fun s o => (update_cycle s o).1) s) := by
    induction outs with
    | nil => intro s hs; exact hs
    | cons o rest ih =>
      intro s hs
      exact ih _ (coordInv_step s o hs)
  exact h initCoordState ⟨fun _ => rfl, Or.inl rfl⟩

lemma fail_increments (s : CoordState) :
    (update_cycle s false).1.consecutive_failures =
      s.consecutive_failures + 1 := by
  unfold update_cycle _maybe_backoff
  split_ifs <;> simp_all

lemma fail_backoff (s : CoordState)
    (h : MAX_FAILURES_BEFORE_BACKOFF ≤
      (update_cycle s false).1.consecutive_failures) :
    (update_cycle s false).1.update_interval = BACKOFF_INTERVAL := by
  rw [fail_increments] at h
  unfold update_cycle _maybe_backoff
  split_ifs with h1 h2 <;> simp_all

lemma warn_once (s : CoordState) (h : (update_cycle s false).2 = true) :
    (update_cycle (update_cycle s false).1 false).2 = false := by
  unfold update_cycle _maybe_backoff at h ⊢
  split_ifs at h ⊢ <;> simp_all

lemma success_resets (s : CoordState) (h : CoordInv s) :
    (update_cycle s true).1 = initCoordState := by
  obtain ⟨h0, _⟩ := h
  by_cases hc : 0 < s.consecutive_failures
  · simp [update_cycle, hc, initCoordState]
  · have h1 : s.consecutive_failures = 0 := by omega
    have hi := h0 h1
    cases s
    simp_all [update_cycle, initCoordState]

lemma backoff_absorbs (s : CoordState)
    (h : s.update_interval = BACKOFF_INTERVAL) :
    (update_cycle s false).2 = false ∧
    (update_cycle s false).1.update_interval = BACKOFF_INTERVAL := by
  unfold update_cycle _maybe_backoff
  split_ifs <;> simp_all

/-- **C2.** From any reachable coordinator state: a failed cycle
increments the consecutive-failure counter; whenever the counter reaches
`MAX_FAILURES_BEFORE_BACKOFF = 3` the interval becomes 120 s; the
transition (warning) fires at most once per outage — once the interval is
at 120 s, further failed cycles neither warn again nor change it, so it
never fires on a cycle following one that fired; and a successful cycle
resets the counter to 0 and restores the 30 s interval. -/
theorem coordinator_backoff (outs : List Bool) (s : CoordState) :
    ((update_cycle (runCoord outs) false).1.consecutive_failures =
      (runCoord outs).consecutive_failures + 1) ∧
    (MAX_FAILURES_BEFORE_BACKOFF ≤
        (update_cycle (runCoord outs) false).1.consecutive_failures →
      (update_cycle (runCoord outs) false).1.update_interval =
        BACKOFF_INTERVAL) ∧
    ((update_cycle (runCoord outs) false).2 = true →
      (update_cycle (update_cycle (runCoord outs) false).1 false).2 =
        false) ∧
    (s.update_interval = BACKOFF_INTERVAL →
      (update_cycle s false).2 = false ∧
      (update_cycle s false).1.update_interval = BACKOFF_INTERVAL) ∧
    (update_cycle (runCoord outs) true).1 = initCoordState := by
  exact ⟨fail_increments _, fail_backoff _, warn_once _,
    backoff_absorbs s, success_resets _ (coordInv_run outs)⟩

/-- Witness for C2: two failed cycles, then a third failure triggers the
backoff transition; a success from there restores the initial state. -/
theorem coordinator_backoff_witness :
    ((update_cycle (runCoord [false, false]) false).1.consecutive_failures =
      (runCoord [false, false]).consecutive_failures + 1) ∧
    ((update_cycle (runCoord [false, false]) false).1.update_interval =
      BACKOFF_INTERVAL) ∧
    ((update_cycle (update_cycle (runCoord [false, false]) false).1
      false).2 = false) ∧
    ((update_cycle (⟨3, 120⟩ : CoordState) false).2 = false ∧
      (update_cycle (⟨3, 120⟩ : CoordState) false).1.update_interval =
        BACKOFF_INTERVAL) ∧
    (update_cycle (runCoord [false, false]) true).1 = initCoordState := by
  have h := coordinator_backoff [false, false] ⟨3, 120⟩
  exact ⟨h.1, h.2.1 (by decide), h.2.2.1 (by decide),
    h.2.2.2.1 (by decide), h.2.2.2.2⟩

/-! ### Single-flight gate (modbus_client.py low-level operations)

Every register operation runs `async with self._lock:` then
`await asyncio.sleep(MIN_REQUEST_DELAY)` then the wire call.  We model two
concurrently invoked operations as two threads each executing the
instruction list `[lock, sleep, wire, unlock]`, interleaved by an
arbitrary scheduler; `lock` blocks while the gate is held.  A valid
complete trace is any interleaving the gate's semantics admits that runs
both operations to completion. -/

/-- `MIN_REQUEST_DELAY = 0.15` seconds: the pacing delay the `sleep`
instruction performs. -/
def MIN_REQUEST_DELAY : ℚ := 15 / 100

inductive Instr where
  | lock | sleep | wire | unlock
deriving DecidableEq

/-- The code of every register operation (`_read_input_registers`,
`_read_holding_registers`, `_write_register`): acquire the gate, pace,
touch the wire, release. -/
def opProgram : List Instr :=
  [Instr.lock, Instr.sleep, Instr.wire, Instr.unlock]

structure LockState where
  holder : Option Bool
  remA : List Instr
  remB : List Instr
deriving DecidableEq

def remOf (s : LockState) (a : Bool) : List Instr :=
  if a then s.remA else s.remB

def setRem (s : LockState) (a : Bool) (l : List Instr) : LockState :=
  if a then { s with remA := l } else { s with remB := l }

/-- One scheduler step: thread `e.1` executes its next instruction if the
gate admits it. -/
def lockStep (s : LockState) (e : Bool × Instr) : Option LockState :=
  match remOf s e.1 with
  | [] => Option.none
  | i :: rest =>
    if i ≠ e.2 then Option.none
    else
      match e.2 with
      | Instr.lock =>
        if s.holder = Option.none then
          some (setRem { s with holder := some e.1 } e.1 rest)
        else Option.none
      | Instr.unlock =>
        if s.holder = some e.1 then
          some (setRem { s with holder := Option.none } e.1 rest)
        else Option.none
      | _ => some (setRem s e.1 rest)

def runLock : LockState → List (Bool × Instr) → Option LockState
  | s, [] => some s
  | s, e :: es =>
    match lockStep s e with
    | some s2 => runLock s2 es
    | Option.none => Option.none

def initLock : LockState := ⟨Option.none, opProgram, opProgram⟩

/-- A complete execution of two concurrent register operations. -/
def ValidTrace (t : List (Bool × Instr)) : Prop :=
  runLock initLock t = some ⟨Option.none, [], []⟩

/-- The events of the operation run by thread `a`, in program order. -/
def opEvents (a : Bool) : List (Bool × Instr) :=
  opProgram.map (fun i => (a, i))

lemma validTrace_char (t : List (Bool × Instr)) (h : ValidTrace t) :
    t = opEvents true ++ opEvents false ∨
    t = opEvents false ++ opEvents true := by
  unfold ValidTrace at h
  cases t with
  | nil => simp [runLock, initLock, opProgram] at h
  | cons e1 t1 =>
  obtain ⟨a1, i1⟩ := e1
  cases a1 <;> cases i1 <;>
    simp [runLock, lockStep, remOf, setRem, initLock, opProgram] at h <;>
  · cases t1 with
    | nil => simp [runLock] at h
    | cons e2 t2 =>
    obtain ⟨a2, i2⟩ := e2
    cases a2 <;> cases i2 <;>
      simp [runLock, lockStep, remOf, setRem] at h <;>
    · cases t2 with
      | nil => simp [runLock] at h
      | cons e3 t3 =>
      obtain ⟨a3, i3⟩ := e3
      cases a3 <;> cases i3 <;>
        simp [runLock, lockStep, remOf, setRem] at h <;>
      · cases t3 with
        | nil => simp [runLock] at h
        | cons e4 t4 =>
        obtain ⟨a4, i4⟩ := e4
        cases a4 <;> cases i4 <;>
          simp [runLock, lockStep, remOf, setRem] at h <;>
        · cases t4 with
          | nil => simp [runLock] at h
          | cons e5 t5 =>
          obtain ⟨a5, i5⟩ := e5
          cases a5 <;> cases i5 <;>
            simp [runLock, lockStep, remOf, setRem] at h <;>
          · cases t5 with
            | nil => simp [runLock] at h
            | cons e6 t6 =>
            obtain ⟨a6, i6⟩ := e6
            cases a6 <;> cases i6 <;>
              simp [runLock, lockStep, remOf, setRem] at h <;>
            · cases t6 with
              | nil => simp [runLock] at h
              | cons e7 t7 =>
              obtain ⟨a7, i7⟩ := e7
              cases a7 <;> cases i7 <;>
                simp [runLock, lockStep, remOf, setRem] at h <;>
              · cases t7 with
                | nil => simp [runLock] at h
                | cons e8 t8 =>
                obtain ⟨a8, i8⟩ := e8
                cases a8 <;> cases i8 <;>
                  simp [runLock, lockStep, remOf, setRem] at h <;>
                · cases t8 with
                  | cons e9 t9 =>
                    obtain ⟨a9, i9⟩ := e9
                    cases a9 <;> cases i9 <;>
                      simp [runLock, lockStep, remOf, setRem] at h
                  | nil => first
                    | exact Or.inl rfl
                    | exact Or.inr rfl

/-- **C3.** Any complete trace of two concurrent register operations is
one operation's four events followed entirely by the other's: the gate
serializes them (no interleaved wire activity), every operation performs
its pacing sleep after acquiring the gate and before its wire access, and
the second operation's sleep begins only after the first operation has
released the gate (completed). -/
theorem single_flight_discipline (t : List (Bool × Instr))
    (h : ValidTrace t) :
    (t = opEvents true ++ opEvents false ∨
      t = opEvents false ++ opEvents true) ∧
    (∀ a, t.indexOf (a, Instr.sleep) < t.indexOf (a, Instr.wire)) ∧
    (∀ a, t = opEvents a ++ opEvents (!a) →
      t.indexOf (a, Instr.unlock) < t.indexOf (!a, Instr.sleep)) := by
  have hc := validTrace_char t h
  refine ⟨hc, ?_, ?_⟩
  · rcases hc with rfl | rfl <;> intro a <;> cases a <;> decide
  · rcases hc with rfl | rfl <;> intro a ha <;> cases a <;>
      first
        | decide
        | (exfalso; revert ha; decide)

/-- Witness for C3: the trace in which the first operation runs to
completion before the second. -/
theorem single_flight_discipline_witness :
    ((opEvents true ++ opEvents false).indexOf (true, Instr.unlock) <
      (opEvents true ++ opEvents false).indexOf (false, Instr.sleep)) ∧
    (∀ a, (opEvents true ++ opEvents false).indexOf (a, Instr.sleep) <
      (opEvents true ++ opEvents false).indexOf (a, Instr.wire)) := by
  have h := single_flight_discipline (opEvents true ++ opEvents false)
    (by unfold ValidTrace; rfl)
  exact ⟨by simpa using h.2.2 true rfl, h.2.1⟩

/-! ### read_all_data (modbus_client.py)

`read_all_data` performs sixteen batched register reads.  The device's
responses are abstracted as an oracle from `(kind, address, count)` to
`Option (List Nat)` (`none` = the low-level read returned failure).  The
snapshot is the Python dict, embedded as the association list of
`(key, value)` insertions in program order; all keys are distinct (proved
below), so first-match lookup coincides with the dict.  Out-of-range
indexing cannot occur on real responses (pymodbus returns `count` words),
embedded as `List.getD · · 0`. -/

inductive RegKind where
  | input
  | holding
deriving DecidableEq

abbrev Oracle := RegKind → Nat → Nat → Option (List Nat)

/-- `regs[i]` -/
def gD (rs : List Nat) (i : Nat) : Nat := rs.getD i 0

/-- Batch 1: input 4020–4024 (active function, vent mode, pressures). -/
def batch1dec (rs : List Nat) : List (String × Val) :=
  [("active_function", Val.str (labelGet ACTIVE_FUNCTION_MAP (gD rs 0))),
   ("active_function_raw", Val.int (gD rs 0)),
   ("fan_control_type", Val.int (gD rs 1)),
   ("ventilation_mode", Val.str (labelGet VENTILATION_MODE_MAP (gD rs 2))),
   ("ventilation_mode_raw", Val.int (gD rs 2)),
   ("supply_pressure", Val.rat (signedTenths (gD rs 3))),
   ("exhaust_pressure", Val.rat (signedTenths (gD rs 4)))]

/-- Batch 2: input 4030–4037 (supply fan block). -/
def batch2dec (rs : List Nat) : List (String × Val) :=
  [("fan_inlet_status", Val.str (labelGet FAN_STATUS_MAP (gD rs 0))),
   ("supply_airflow_setpoint", Val.int (gD rs 1)),
   ("supply_airflow_actual", Val.int (gD rs 2)),
   ("supply_massflow", Val.int (gD rs 3)),
   ("supply_fan_speed", Val.int (gD rs 4)),
   ("supply_fan_temperature", Val.rat (signedTenths (gD rs 6))),
   ("supply_fan_humidity", humidity_decode (gD rs 7))]

/-- Batch 3: input 4040–4047 (exhaust fan block). -/
def batch3dec (rs : List Nat) : List (String × Val) :=
  [("fan_exhaust_status", Val.str (labelGet FAN_STATUS_MAP (gD rs 0))),
   ("exhaust_airflow_actual", Val.int (gD rs 2)),
   ("exhaust_fan_speed", Val.int (gD rs 4)),
   ("exhaust_fan_temperature", Val.rat (signedTenths (gD rs 6))),
   ("exhaust_fan_humidity", humidity_decode (gD rs 7))]

/-- Batch 4: input 4050–4051 (bypass status). -/
def batch4dec (rs : List Nat) : List (String × Val) :=
  [("bypass_status", Val.str (labelGet BYPASS_STATUS_MAP (gD rs 0))),
   ("bypass_status_raw", Val.int (gD rs 0)),
   ("bypass_step_position", Val.int (gD rs 1))]

/-- Batch 5: input 4060–4061 (preheater). -/
def batch5dec (rs : List Nat) : List (String × Val) :=
  [("preheater_status", Val.str (labelGet PREHEATER_STATUS_MAP (gD rs 0))),
   ("preheater_capacity", Val.int (gD rs 1))]

/-- Batch 6: input 4070–4072 (frost). -/
def batch6dec (rs : List Nat) : List (String × Val) :=
  [("frost_status_raw", Val.int (gD rs 0)),
   ("frost_heater_power", Val.int (gD rs 1)),
   ("frost_fan_reduction", Val.int (gD rs 2))]

/-- Batch 7: input 4080–4083 (temperatures / RHT humidity, with the 9999
dwelling-temperature sentinel). -/
def batch7dec (rs : List Nat) : List (String × Val) :=
  [("flow_switch_position", Val.int (gD rs 0)),
   ("outside_temperature", Val.rat (signedTenths (gD rs 1))),
   ("dwelling_temperature",
     if _to_signed (gD rs 2) ≠ 9999 then Val.rat (signedTenths (gD rs 2))
     else Val.none),
   ("rht_humidity", humidity_decode (gD rs 3))]

/-- Batch 8: input 4100 (filter status). -/
def batch8dec (rs : List Nat) : List (String × Val) :=
  [("filter_status", Val.str (labelGet FILTER_STATUS_MAP (gD rs 0)))]

/-- Batch 9: input 4113–4115 (operating hours 32-bit join, filter hours). -/
def batch9dec (rs : List Nat) : List (String × Val) :=
  [("operating_hours", Val.int (((gD rs 0) <<< 16) ||| (gD rs 1))),
   ("filter_hours", Val.int (gD rs 2))]

/-- Batch 10: input 4200–4203 (CO₂ sensors, gated on a status of 4). -/
def batch10dec (rs : List Nat) : List (String × Val) :=
  [("co2_sensor1",
     if gD rs 0 = 4 then Val.int (gD rs 1) else Val.none),
   ("co2_sensor2",
     if gD rs 2 = 4 then Val.int (gD rs 3) else Val.none)]

/-- Batch 11: input 4800–4801 (system error, active incident). -/
def batch11dec (rs : List Nat) : List (String × Val) :=
  [("system_error", Val.str (labelGet SYSTEM_ERROR_MAP (gD rs 0))),
   ("system_error_raw", Val.int (gD rs 0)),
   ("active_incident",
     if gD rs 1 ≠ 0 then Val.int (gD rs 1) else Val.none)]

/-- Batch 12: input 4010–4012 (BCD serial number). -/
def batch12dec (rs : List Nat) : List (String × Val) :=
  [("serial_number", Val.str (serial_decode rs))]

/-- Batch 13: holding 6000–6003 (flow presets). -/
def batch13dec (rs : List Nat) : List (String × Val) :=
  [("flow_preset_holiday", Val.int (gD rs 0)),
   ("flow_preset_low", Val.int (gD rs 1)),
   ("flow_preset_normal", Val.int (gD rs 2)),
   ("flow_preset_high", Val.int (gD rs 3))]

/-- Batch 14: holding 6100–6102 (bypass mode and thresholds). -/
def batch14dec (rs : List Nat) : List (String × Val) :=
  [("bypass_mode", Val.str (bypass_mode_label (gD rs 0))),
   ("bypass_mode_raw", Val.int (gD rs 0)),
   ("bypass_temp_dwelling", Val.rat (signedTenths (gD rs 1))),
   ("bypass_temp_outside", Val.rat (signedTenths (gD rs 2)))]

/-- Batch 15: holding 6120 (filter warning days). -/
def batch15dec (rs : List Nat) : List (String × Val) :=
  [("filter_warning_days", Val.int (gD rs 0))]

/-- Batch 16: holding 8000–8003 (remote control block and the derived
airflow mode). -/
def batch16dec (rs : List Nat) : List (String × Val) :=
  [("modbus_control", Val.int (gD rs 0)),
   ("switch_position", Val.int (gD rs 1)),
   ("desired_flow_rate", Val.int (gD rs 2)),
   ("standby_status", Val.int (gD rs 3)),
   ("airflow_mode", Val.str (
     if gD rs 0 = 0 then "wall_unit"
     else if gD rs 0 = 1 then
       (List.lookup (gD rs 1) SWITCH_TO_AIRFLOW_MODE).getD "unknown"
     else if gD rs 0 = 2 then "custom"
     else "unknown"))]

/-- A batched register read: kind, absolute start address, word count, the
field decoder for its response, and its (response-independent) field
names. -/
structure BatchSpec where
  kind : RegKind
  addr : Nat
  count : Nat
  dec : List Nat → List (String × Val)
  keys : List String
  keys_eq : ∀ rs, (dec rs).map Prod.fst = keys

def batch1 : BatchSpec :=
  ⟨RegKind.input, REG_ACTIVE_FUNCTION, 5, batch1dec,
    ["active_function", "active_function_raw", "fan_control_type", "ventilation_mode", "ventilation_mode_raw", "supply_pressure", "exhaust_pressure"], fun _ => rfl⟩

def batch2 : BatchSpec :=
  ⟨RegKind.input, REG_FAN_INLET_STATUS, 8, batch2dec,
    ["fan_inlet_status", "supply_airflow_setpoint", "supply_airflow_actual", "supply_massflow", "supply_fan_speed", "supply_fan_temperature", "supply_fan_humidity"], fun _ => rfl⟩

def batch3 : BatchSpec :=
  ⟨RegKind.input, REG_FAN_EXHAUST_STATUS, 8, batch3dec,
    ["fan_exhaust_status", "exhaust_airflow_actual", "exhaust_fan_speed", "exhaust_fan_temperature", "exhaust_fan_humidity"], fun _ => rfl⟩

def batch4 : BatchSpec :=
  ⟨RegKind.input, REG_BYPASS_STATUS, 2, batch4dec,
    ["bypass_status", "bypass_status_raw", "bypass_step_position"], fun _ => rfl⟩

def batch5 : BatchSpec :=
  ⟨RegKind.input, REG_PREHEATER_STATUS, 2, batch5dec,
    ["preheater_status", "preheater_capacity"], fun _ => rfl⟩

def batch6 : BatchSpec :=
  ⟨RegKind.input, REG_FROST_STATUS, 3, batch6dec,
    ["frost_status_raw", "frost_heater_power", "frost_fan_reduction"], fun _ => rfl⟩

def batch7 : BatchSpec :=
  ⟨RegKind.input, REG_OUTSIDE_TEMP - 1, 4, batch7dec,
    ["flow_switch_position", "outside_temperature", "dwelling_temperature", "rht_humidity"], fun _ => rfl⟩

def batch8 : BatchSpec :=
  ⟨RegKind.input, REG_FILTER_STATUS, 1, batch8dec,
    ["filter_status"], fun _ => rfl⟩

def batch9 : BatchSpec :=
  ⟨RegKind.input, REG_OPERATING_HOURS_HI, 3, batch9dec,
    ["operating_hours", "filter_hours"], fun _ => rfl⟩

def batch10 : BatchSpec :=
  ⟨RegKind.input, REG_CO2_SENSOR1_VALUE - 1, 4, batch10dec,
    ["co2_sensor1", "co2_sensor2"], fun _ => rfl⟩

def batch11 : BatchSpec :=
  ⟨RegKind.input, REG_SYSTEM_ERROR_STATUS, 2, batch11dec,
    ["system_error", "system_error_raw", "active_incident"], fun _ => rfl⟩

def batch12 : BatchSpec :=
  ⟨RegKind.input, REG_SERIAL_0, 3, batch12dec,
    ["serial_number"], fun _ => rfl⟩

def batch13 : BatchSpec :=
  ⟨RegKind.holding, REG_FLOW_PRESET_0, 4, batch13dec,
    ["flow_preset_holiday", "flow_preset_low", "flow_preset_normal", "flow_preset_high"], fun _ => rfl⟩

def batch14 : BatchSpec :=
  ⟨RegKind.holding, REG_BYPASS_MODE, 3, batch14dec,
    ["bypass_mode", "bypass_mode_raw", "bypass_temp_dwelling", "bypass_temp_outside"], fun _ => rfl⟩

def batch15 : BatchSpec :=
  ⟨RegKind.holding, REG_FILTER_WARNING_DAYS, 1, batch15dec,
    ["filter_warning_days"], fun _ => rfl⟩

def batch16 : BatchSpec :=
  ⟨RegKind.holding, REG_MODBUS_CONTROL, 4, batch16dec,
    ["modbus_control", "switch_position", "desired_flow_rate", "standby_status", "airflow_mode"], fun _ => rfl⟩

/-- The fifteen optional batches, in the order `read_all_data` reads
them. -/
def optBatches : List BatchSpec :=
  [batch2, batch3, batch4, batch5, batch6, batch7, batch8, batch9,
   batch10, batch11, batch12, batch13, batch14, batch15, batch16]

/-- An optional batch read with its truthiness guard (`if regs:`): a
failed read, and an empty response, contribute no fields. -/
def optRead (r : Oracle) (b : BatchSpec) : List (String × Val) :=
  match r b.kind b.addr b.count with
  | Option.none => []
  | some rs => if rs.isEmpty then [] else b.dec rs

/-- `read_all_data`: the first batch (5 input registers at 4020) is
load-bearing — `if regs is None: return None`; afterwards the fifteen
optional batches contribute their fields when their read succeeds. -/
def read_all_data (r : Oracle) : Option (List (String × Val)) :=
  match r RegKind.input REG_ACTIVE_FUNCTION 5 with
  | Option.none => Option.none
  | some regs =>
    some (batch1.dec regs ++ (optBatches.map (optRead r)).flatten)

/-! ### Association-list lookup facts used for the snapshot dict -/

lemma lookup_of_mem_nodup {β : Type} :
    ∀ (l : List (String × β)), (l.map Prod.fst).Nodup →
      ∀ kv : String × β, kv ∈ l → List.lookup kv.1 l = some kv.2 := by
  intro l
  induction l with
  | nil => intro _ kv h; simp at h
  | cons p t ih =>
    intro hnd kv hm
    obtain ⟨k', v'⟩ := p
    obtain ⟨k, v⟩ := kv
    simp only [List.map_cons, List.nodup_cons] at hnd
    rcases List.mem_cons.mp hm with heq | ht
    · cases heq
      simp [List.lookup]
    · have hk : k ∈ t.map Prod.fst := List.mem_map_of_mem Prod.fst ht
      have hne : (k == k') = false :=
        beq_eq_false_iff_ne.mpr (fun h => hnd.1 (h ▸ hk))
      simpa [List.lookup, hne] using ih hnd.2 (k, v) ht

lemma lookup_eq_none_of_not_mem {β : Type} :
    ∀ (l : List (String × β)) (k : String), k ∉ l.map Prod.fst →
      List.lookup k l = Option.none := by
  intro l
  induction l with
  | nil => intro k _; rfl
  | cons p t ih =>
    intro k hk
    obtain ⟨k', v'⟩ := p
    simp only [List.map_cons, List.mem_cons, not_or] at hk
    have hne : (k == k') = false := beq_eq_false_iff_ne.mpr hk.1
    simp [List.lookup, hne, ih k hk.2]

/-! ### Structure of the snapshot produced by read_all_data -/

lemma optRead_keys_sublist (r : Oracle) :
    ∀ bs : List BatchSpec,
      List.Sublist (((bs.map (optRead r)).flatten).map Prod.fst)
        ((bs.map BatchSpec.keys).flatten) := by
  intro bs
  induction bs with
  | nil => simp
  | cons b t ih =>
    simp only [List.map_cons, List.flatten_cons, List.map_append]
    rcases hor : r b.kind b.addr b.count with _ | rs
    · have h0 : optRead r b = [] := by simp [optRead, hor]
      rw [h0]
      simp only [List.map_nil, List.nil_append]
      exact ih.trans (List.sublist_append_right _ _)
    · by_cases he : rs.isEmpty
      · have h0 : optRead r b = [] := by simp [optRead, hor, he]
        rw [h0]
        simp only [List.map_nil, List.nil_append]
        exact ih.trans (List.sublist_append_right _ _)
      · have h0 : optRead r b = b.dec rs := by
          simp [optRead, hor, eq_false_of_ne_true he]
        rw [h0, b.keys_eq rs]
        exact ih.append_left _

lemma optRead_absent (r : Oracle) :
    ∀ (bs : List BatchSpec) (k : String),
      (∀ b ∈ bs, k ∈ b.keys → optRead r b = []) →
      k ∉ ((bs.map (optRead r)).flatten).map Prod.fst := by
  intro bs
  induction bs with
  | nil => intro k _; simp
  | cons b t ih =>
    intro k hall
    simp only [List.map_cons, List.flatten_cons, List.map_append,
      List.mem_append]
    rintro (hin | hin)
    · by_cases hk : k ∈ b.keys
      · rw [hall b (List.mem_cons_self b t) hk] at hin
        simp at hin
      · rcases hor : r b.kind b.addr b.count with _ | rs
        · simp [optRead, hor] at hin
        · by_cases he : rs.isEmpty
          · simp [optRead, hor, he] at hin
          · have h0 : optRead r b = b.dec rs := by
              simp [optRead, hor, eq_false_of_ne_true he]
            rw [h0, b.keys_eq rs] at hin
            exact hk hin
    · exact ih k (fun bp hbp => hall bp (List.mem_cons_of_mem b hbp)) hin

lemma all_empty_of_fail (r : Oracle) :
    ∀ bs : List BatchSpec,
      List.Pairwise (fun x y : BatchSpec => x.keys.Disjoint y.keys) bs →
      ∀ b ∈ bs, ∀ k ∈ b.keys, optRead r b = [] →
      ∀ bp ∈ bs, k ∈ bp.keys → optRead r bp = [] := by
  intro bs
  induction bs with
  | nil => intro _ b hb; simp at hb
  | cons c t ih =>
    intro hpw b hb k hk hfail bp hbp hkbp
    obtain ⟨hc, ht⟩ := List.pairwise_cons.mp hpw
    rcases List.mem_cons.mp hb with rfl | hbt
    · rcases List.mem_cons.mp hbp with rfl | hbpt
      · exact hfail
      · exact absurd hkbp (hc bp hbpt hk)
    · rcases List.mem_cons.mp hbp with rfl | hbpt
      · exact absurd hk (hc b hbt hkbp)
      · exact ih ht b hbt k hk hfail bp hbpt hkbp

/-- All 54 snapshot field names, across the 16 batches, are distinct, so
first-match lookup in the association list coincides with the Python
dict. -/
lemma allBatchKeys_nodup :
    (batch1.keys ++ (optBatches.map BatchSpec.keys).flatten).Nodup := by
  decide

/-- **C1.** If the load-bearing first batch (5 input registers at 4020)
fails, `read_all_data` returns no snapshot at all; if it succeeds, a
snapshot is returned in which every field decoded from a succeeded batch
is present with its decoded value, and a failed later batch only omits
that batch's own fields. -/
theorem read_all_data_batches (r : Oracle) :
    (r RegKind.input REG_ACTIVE_FUNCTION 5 = Option.none →
      read_all_data r = Option.none) ∧
    (∀ regs, r RegKind.input REG_ACTIVE_FUNCTION 5 = some regs →
      ∃ d, read_all_data r = some d ∧
        (∀ kv ∈ batch1.dec regs, List.lookup kv.1 d = some kv.2) ∧
        (∀ b ∈ optBatches, ∀ rs, r b.kind b.addr b.count = some rs →
          rs ≠ [] → ∀ kv ∈ b.dec rs, List.lookup kv.1 d = some kv.2) ∧
        (∀ b ∈ optBatches, r b.kind b.addr b.count = Option.none →
          ∀ k ∈ b.keys, List.lookup k d = Option.none)) := by
  constructor
  · intro h
    simp [read_all_data, h]
  · intro regs hregs
    refine ⟨batch1.dec regs ++ (optBatches.map (optRead r)).flatten,
      by simp [read_all_data, hregs], ?_, ?_, ?_⟩
    case _ =>
      intro kv hkv
      exact lookup_of_mem_nodup _ (allBatchKeys_nodup.sublist (by
        rw [List.map_append, batch1.keys_eq regs]
        exact (optRead_keys_sublist r optBatches).append_left _))
        kv (List.mem_append_left _ hkv)
    case _ =>
      intro b hb rs hrs hne kv hkv
      have hne2 : rs.isEmpty = false := by
        cases rs with
        | nil => exact absurd rfl hne
        | cons a t => rfl
      have hopt : optRead r b = b.dec rs := by
        simp [optRead, hrs, hne2]
      have hmem : kv ∈ (optBatches.map (optRead r)).flatten :=
        List.mem_flatten.mpr
          ⟨optRead r b, List.mem_map_of_mem _ hb, hopt ▸ hkv⟩
      exact lookup_of_mem_nodup _ (allBatchKeys_nodup.sublist (by
        rw [List.map_append, batch1.keys_eq regs]
        exact (optRead_keys_sublist r optBatches).append_left _))
        kv (List.mem_append_right _ hmem)
    case _ =>
      intro b hb hfail k hk
      apply lookup_eq_none_of_not_mem
      rw [List.map_append]
      simp only [List.mem_append, not_or]
      constructor
      · rw [batch1.keys_eq regs]
        have hkflat : k ∈ (optBatches.map BatchSpec.keys).flatten :=
          List.mem_flatten.mpr ⟨b.keys, List.mem_map_of_mem _ hb, hk⟩
        exact fun hk1 =>
          (List.disjoint_of_nodup_append allBatchKeys_nodup) hk1 hkflat
      · have hpw : List.Pairwise
            (fun x y : BatchSpec => x.keys.Disjoint y.keys) optBatches :=
          List.pairwise_map.mp
            (List.nodup_flatten.mp allBatchKeys_nodup.of_append_right).2
        have hf0 : optRead r b = [] := by simp [optRead, hfail]
        exact optRead_absent r optBatches k
          (all_empty_of_fail r optBatches hpw b hb k hk hf0)

/-- Oracle for the C1 witness: the exhaust-fan batch (input 4040) fails,
every other read succeeds with all-zero words. -/
def sampleOracle : Oracle := fun kind addr count =>
  if kind = RegKind.input ∧ addr = REG_FAN_EXHAUST_STATUS then Option.none
  else some (List.replicate count 0)

/-- Oracle for the C1 witness: every read fails. -/
def failOracle : Oracle := fun _ _ _ => Option.none

/-- Witness for C1: a failing first batch yields no snapshot; with only
the exhaust-fan batch failing, a first-batch field and another optional
batch's field are present while the failed batch's field is absent. -/
theorem read_all_data_batches_witness :
    read_all_data failOracle = Option.none ∧
    ∃ d, read_all_data sampleOracle = some d ∧
      List.lookup "active_function_raw" d = some (Val.int 0) ∧
      List.lookup "bypass_status_raw" d = some (Val.int 0) ∧
      List.lookup "fan_exhaust_status" d = Option.none := by
  refine ⟨(read_all_data_batches failOracle).1 rfl, ?_⟩
  obtain ⟨d, hd, h1, h2, h3⟩ :=
    (read_all_data_batches sampleOracle).2 (List.replicate 5 0) rfl
  refine ⟨d, hd, ?_, ?_, ?_⟩
  · exact h1 ("active_function_raw", Val.int 0) (by decide)
  · exact h2 batch4 (by simp [optBatches]) (List.replicate 2 0) rfl
      (by decide) ("bypass_status_raw", Val.int 0) (by decide)
  · exact h3 batch3 (by simp [optBatches]) rfl "fan_exhaust_status"
      (by decide)

end UbbinkVigor
